import Mathlib

/-!
Shallow embedding of the BudgetWise persistence and auth layer
(`src/services/DatabaseService.js` and the `AuthService` it ships with).

Conventions of the embedding:
* SQLite tables are Lean lists of row structures; the semantics of each SQL
  statement issued by the JavaScript code is folded into the Lean definition
  of the operation that issues it.
* `await this.db.executeSql(...)` may throw; every operation therefore takes
  an `Except String Unit` argument describing whether the underlying store
  call succeeded (`.ok ()`) or threw (`.error e`), and the Lean definition
  reproduces the JavaScript `try`/`catch` structure on it.
* Machine numbers: SQLite `REAL` amounts are modelled as exact integers
  (the aggregation claims concern grouping and summing structure, not
  floating-point rounding); JavaScript
  `Date.now()` milliseconds as `Int`; dates are the ISO-8601 `TEXT` strings
  the code stores, compared lexicographically exactly as SQLite compares
  `TEXT` (identical to chronological order for this fixed format).
* External libraries (CryptoJS AES, SHA-256, JSON, the secure key-value
  store) are parameters of the operations that call them.
-/

namespace BudgetWise

/-- Transaction type. Modelled from the spec: the `Transaction` model class
(`src/models/Transaction.js`) is not part of the provided sources; the spec's
data model declares `type` as the enum income | expense | transfer, and every
row reaches the table through that model. -/
inductive TType where
  | income
  | expense
  | transfer
deriving DecidableEq, Repr

/-- A stored row of the `transactions` table, one field per column of the
`CREATE TABLE transactions` statement.  `tags` and `recurringPattern` hold
serialized text (nullable), `recurring` the stored 0/1 integer. -/
structure TxnRow where
  id : String
  amount : Int
  type : TType
  category : Option String
  subcategory : Option String
  description : Option String
  date : String
  account : String
  currency : String
  tags : Option String
  location : Option String
  receipt : Option String
  recurring : Int
  recurringPattern : Option String
  createdAt : String
  updatedAt : String
deriving DecidableEq, Repr

/-- A deserialized transaction as produced by the row-mapping loop of
`getTransactions`: `tags` parsed from text, `recurring` coerced to a boolean,
`recurringPattern` parsed from text. -/
structure Txn where
  id : String
  amount : Int
  type : TType
  category : Option String
  subcategory : Option String
  description : Option String
  date : String
  account : String
  currency : String
  tags : List String
  location : Option String
  receipt : Option String
  recurring : Bool
  recurringPattern : Option String
  createdAt : String
  updatedAt : String
deriving DecidableEq, Repr

/-- The row-mapping loop body of `getTransactions`:
`txn.tags = JSON.parse(txn.tags || '[]')`,
`txn.recurringPattern = JSON.parse(txn.recurringPattern || 'null')`,
`txn.recurring = Boolean(txn.recurring)`.  The two JSON parsers are passed in
as functions; a SQL `NULL` falls back to the literal `'[]'` / `'null'` text
exactly as the `||` defaulting does. -/
def deserializeTxn (parseTags : String → List String)
    (parsePattern : String → Option String) (r : TxnRow) : Txn :=
  { id := r.id, amount := r.amount, type := r.type, category := r.category
    subcategory := r.subcategory, description := r.description, date := r.date
    account := r.account, currency := r.currency
    tags := parseTags (r.tags.getD "[]")
    location := r.location, receipt := r.receipt
    recurring := r.recurring != 0
    recurringPattern := parsePattern (r.recurringPattern.getD "null")
    createdAt := r.createdAt, updatedAt := r.updatedAt }

/-- A row of the `categories` table (columns of `CREATE TABLE categories`,
the `parentId` column omitted by the seeding insert kept as optional). -/
structure CatRow where
  id : String
  name : String
  type : String
  color : String
  icon : String
  isActive : Int
  createdAt : String
  updatedAt : String
deriving DecidableEq, Repr

/-- A row of the `settings` table. -/
structure SettingRow where
  key : String
  value : String
  updatedAt : String
deriving DecidableEq, Repr

/-- One entry of the `defaultCategories` array in `insertDefaultCategories`. -/
structure CatSeed where
  name : String
  type : String
  color : String
  icon : String
deriving DecidableEq, Repr

/-- The `defaultCategories` array of `insertDefaultCategories`. -/
def defaultCategories : List CatSeed :=
  [⟨"Salary", "income", "#10b981", "briefcase"⟩,
   ⟨"Food & Dining", "expense", "#ef4444", "restaurant"⟩,
   ⟨"Transportation", "expense", "#f97316", "car"⟩,
   ⟨"Shopping", "expense", "#eab308", "bag"⟩,
   ⟨"Entertainment", "expense", "#8b5cf6", "film"⟩]

/-- SQLite semantics of
`INSERT OR IGNORE INTO categories (id, ...) VALUES (?, ...)`:
the row is dropped exactly when it conflicts with an existing row on the only
uniqueness constraint of the table, the `id` primary key. -/
def insertOrIgnoreCategory (st : List CatRow) (r : CatRow) : List CatRow :=
  if st.any fun c => c.id == r.id then st else st ++ [r]

/-- `insertDefaultCategories`: iterates over `defaultCategories`, generating a
fresh identifier `'cat_' + Date.now() + '_' + Math.random()...` for each row
and issuing the `INSERT OR IGNORE`.  The freshly generated identifiers are
passed in as the list `ids` (one per seed, in loop order); `now` is the
`new Date().toISOString()` timestamp. -/
def insertDefaultCategories (ids : List String) (now : String)
    (st : List CatRow) : List CatRow :=
  (defaultCategories.zip ids).foldl
    (fun acc p =>
      insertOrIgnoreCategory acc
        { id := p.2, name := p.1.name, type := p.1.type, color := p.1.color
          icon := p.1.icon, isActive := 1, createdAt := now, updatedAt := now })
    st

/-- The `defaultSettings` array of `insertDefaultSettings`. -/
def defaultSettings : List (String × String) :=
  [("currency", "USD"), ("theme", "system"),
   ("notifications", "true"), ("firstLaunch", "true")]

/-- SQLite semantics of
`INSERT OR IGNORE INTO settings (key, value, updatedAt) VALUES (?, ?, ?)`:
the row is dropped exactly when its `key` (the primary key) already exists. -/
def insertOrIgnoreSetting (st : List SettingRow) (r : SettingRow) :
    List SettingRow :=
  if st.any fun s => s.key == r.key then st else st ++ [r]

/-- `insertDefaultSettings`: inserts the four default settings with
`INSERT OR IGNORE`, all stamped with one `now` timestamp. -/
def insertDefaultSettings (now : String) (st : List SettingRow) :
    List SettingRow :=
  defaultSettings.foldl
    (fun acc p => insertOrIgnoreSetting acc ⟨p.1, p.2, now⟩) st

/-- SQLite semantics of
`INSERT OR REPLACE INTO settings (key, value, updatedAt) VALUES (?, ?, ?)`
(`setSetting`): any row conflicting on the `key` primary key is deleted and
the new row inserted. -/
def insertOrReplaceSetting (st : List SettingRow) (k v now : String) :
    List SettingRow :=
  (st.filter fun r => !(r.key == k)) ++ [⟨k, v, now⟩]

/-- `setSetting(key, value)`: runs the upsert inside `try`/`catch`; a store
failure is logged and swallowed, leaving the table unchanged and raising
nothing. -/
def setSetting (res : Except String Unit) (st : List SettingRow)
    (k v now : String) : List SettingRow :=
  match res with
  | .ok _ => insertOrReplaceSetting st k v now
  | .error _ => st

/-- `getSetting(key)`: `SELECT value FROM settings WHERE key = ?`, then
`results.rows.length > 0 ? results.rows.item(0).value : null`; a store
failure is caught and `null` returned. -/
def getSetting (res : Except String Unit) (st : List SettingRow)
    (k : String) : Option String :=
  match res with
  | .ok _ => ((st.filter fun r => r.key == k).head?).map (fun r => r.value)
  | .error _ => none

/-- The `filters` argument of `getTransactions`: each field is absent
(`none`) when the key is absent from the object. -/
structure Filters where
  type : Option TType := none
  category : Option String := none
  startDate : Option String := none
  endDate : Option String := none
deriving DecidableEq, Repr

/-- Lexicographic comparison of codepoint sequences: for UTF-8 encoded text
this coincides with SQLite's default `BINARY` collation (bytewise `memcmp`),
which orders the stored ISO-8601 date strings chronologically. -/
def charsLe : List Char → List Char → Bool
  | [], _ => true
  | _ :: _, [] => false
  | a :: as, b :: bs =>
      decide (a.toNat < b.toNat) || (a.toNat == b.toNat && charsLe as bs)

/-- SQLite `TEXT` comparison `a <= b` under the default collation. -/
def textLe (a b : String) : Bool := charsLe a.data b.data

/-- The `WHERE` clause that `getTransactions` assembles: each filter key is
tested with JavaScript truthiness (`if (filters.category)` etc.), so a key
that is present but holds the empty string adds no predicate; a present
truthy key appends `type = ?` / `category = ?` / `date >= ?` / `date <= ?`,
with SQLite's `TEXT` comparison on `date` and `NULL`-propagating equality on
`category` (a `NULL` category matches no `category = ?` predicate). -/
def rowMatches (f : Filters) (r : TxnRow) : Bool :=
  (match f.type with
   | some ty => r.type == ty
   | none => true) &&
  (match f.category with
   | some c => if c = "" then true else r.category == some c
   | none => true) &&
  (match f.startDate with
   | some sd => if sd = "" then true else textLe sd r.date
   | none => true) &&
  (match f.endDate with
   | some ed => if ed = "" then true else textLe r.date ed
   | none => true)

/-- Row order demanded by `ORDER BY date DESC`. -/
def dateGe (a b : TxnRow) : Prop := textLe b.date a.date = true

instance : DecidableRel dateGe :=
  fun a b => inferInstanceAs (Decidable (textLe b.date a.date = true))

/-- `getTransactions(limit, offset, filters)`: runs
`SELECT * FROM transactions WHERE ... ORDER BY date DESC LIMIT ? OFFSET ?`
over the table and maps each result row through the deserialization loop; a
store failure is caught and the empty list returned. -/
def getTransactions (parseTags : String → List String)
    (parsePattern : String → Option String) (res : Except String Unit)
    (table : List TxnRow) (limit offset : Nat) (f : Filters) : List Txn :=
  match res with
  | .ok _ =>
      ((((List.insertionSort dateGe (table.filter (rowMatches f))).drop
            offset).take limit).map (deserializeTxn parseTags parsePattern))
  | .error _ => []

/-- The fixed-shape summary object `{ income: 0, expense: 0, transfer: 0 }`
built by `getTransactionSummary`. -/
structure Summary where
  income : Int
  expense : Int
  transfer : Int
deriving DecidableEq, Repr

/-- `SUM(amount)` over a list of rows. -/
def sumAmounts (l : List TxnRow) : Int := l.foldr (fun t a => t.amount + a) 0

/-- The `WHERE date >= ? AND date <= ?` range predicate of the aggregation
queries (SQLite `TEXT` comparison, both endpoints inclusive). -/
def inRange (sd ed : String) (r : TxnRow) : Bool :=
  textLe sd r.date && textLe r.date ed

/-- The loop body `summary[row.type] = row.total` of
`getTransactionSummary`. -/
def applyTypeTotal (s : Summary) (ty : TType) (tot : Int) : Summary :=
  match ty with
  | .income => { s with income := tot }
  | .expense => { s with expense := tot }
  | .transfer => { s with transfer := tot }

/-- `getTransactionSummary(startDate, endDate)`: runs
`SELECT type, SUM(amount) as total FROM transactions WHERE date >= ? AND
date <= ? GROUP BY type`, producing one `(type, total)` row per type that has
at least one row in range, then folds `summary[row.type] = row.total` over a
zero-initialized `{income, expense, transfer}` object; a store failure is
caught and the zero summary returned. -/
def getTransactionSummary (res : Except String Unit) (table : List TxnRow)
    (sd ed : String) : Summary :=
  match res with
  | .ok _ =>
      (([TType.income, TType.expense, TType.transfer].filterMap fun ty =>
          if ((table.filter (inRange sd ed)).filter
                fun r => r.type == ty).isEmpty then none
          else some (ty, sumAmounts ((table.filter (inRange sd ed)).filter
                fun r => r.type == ty))).foldl
        (fun s p => applyTypeTotal s p.1 p.2) ⟨0, 0, 0⟩)
  | .error _ => ⟨0, 0, 0⟩

/-- A result row of the `getCategoryBreakdown` aggregation query (computed by
SQLite; the JavaScript loop copies the rows out unchanged). -/
structure BreakdownRow where
  category : Option String
  total : Int
  count : Nat
deriving DecidableEq, Repr

/-- `getCategoryBreakdown(type, startDate, endDate)`: the grouping/ordering
happens inside SQLite, whose result rows are the `rows` argument; the
JavaScript copies them into an array, and a store failure is caught and the
empty list returned. -/
def getCategoryBreakdown (res : Except String Unit)
    (rows : List BreakdownRow) : List BreakdownRow :=
  match res with
  | .ok _ => rows
  | .error _ => []

/-- A result row of the `getMonthlyTrends` aggregation query. -/
structure TrendRow where
  month : String
  type : TType
  total : Int
deriving DecidableEq, Repr

/-- `getMonthlyTrends(months)`: as with the breakdown, the aggregation is
SQLite's; the JavaScript copies the result rows, catching store failures and
returning the empty list. -/
def getMonthlyTrends (res : Except String Unit) (rows : List TrendRow) :
    List TrendRow :=
  match res with
  | .ok _ => rows
  | .error _ => []

/-- The `DatabaseService` instance state relevant to `initialize`. -/
structure DBState where
  isInitialized : Bool
deriving DecidableEq, Repr

/-- `initialize()`: returns immediately when already initialized; otherwise
opens the store and creates/seeds the tables, and on ANY failure logs the
error and still sets `isInitialized = true` ("to prevent app crash") — it
never re-raises. -/
def initializeDb (res : Except String Unit) (s : DBState) : DBState :=
  if s.isInitialized then s
  else
    match res with
    | .ok _ => { isInitialized := true }
    | .error _ => { isInitialized := true }

/-- `addTransaction(transaction)`: inserts the normalized record and returns
it; the `catch` block logs the error and re-throws it (`throw error`), so a
store failure propagates to the caller. -/
def addTransaction (res : Except String Unit) (txn : Txn) :
    Except String Txn :=
  match res with
  | .ok _ => .ok txn
  | .error e => .error e

/-- The `AuthService` instance state set up by its constructor. -/
structure AuthState where
  isAuthenticated : Bool
  authMethod : String
  sessionTimeout : Int
  lastActivity : Int
  timerRunning : Bool
deriving DecidableEq, Repr

/-- The `AuthService` constructor state: not authenticated, method `'none'`,
`sessionTimeout = 5 * 60 * 1000` milliseconds, `lastActivity = Date.now()`
(passed in as `now`), no timer running. -/
def defaultAuthState (now : Int) : AuthState :=
  { isAuthenticated := false, authMethod := "none"
    sessionTimeout := 5 * 60 * 1000, lastActivity := now
    timerRunning := false }

/-- Return shapes of the `AuthService` methods: `{ success: true }`,
`{ success: false, error }`, `{ success: false, requiresPIN: true }`. -/
inductive AuthResult where
  | success
  | failure (error : String)
  | requiresPIN
deriving DecidableEq, Repr

/-- `logout()`: clears `isAuthenticated` and stops the session interval. -/
def logout (s : AuthState) : AuthState :=
  { s with isAuthenticated := false, timerRunning := false }

/-- The cadence of the `setInterval` made by `startSessionTimer`,
in milliseconds. -/
def sessionCheckIntervalMs : Int := 30000

/-- One tick of the `setInterval` callback installed by `startSessionTimer`:
`if (this.isAuthenticated && Date.now() - this.lastActivity >
this.sessionTimeout) this.logout()`. -/
def sessionTick (now : Int) (s : AuthState) : AuthState :=
  if s.isAuthenticated && decide (now - s.lastActivity > s.sessionTimeout)
  then logout s else s

/-- `authenticateWithPIN(pin)`: `stored` is the outcome of
`EncryptedStorage.getItem('userPIN')` (`.error` when it threw, `.ok none`
when no value is stored); `hash` is `CryptoJS.SHA256(·).toString()`.  The
code tests `if (!storedHashedPIN)` — JavaScript truthiness, so an empty
stored string also yields the no-PIN failure — then compares hashes, setting
`isAuthenticated` and refreshing `lastActivity` only on a match. -/
def authenticateWithPIN (stored : Except String (Option String))
    (hash : String → String) (now : Int) (s : AuthState) (pin : String) :
    AuthState × AuthResult :=
  match stored with
  | .error e => (s, .failure e)
  | .ok v =>
      match v with
      | none => (s, .failure "No PIN set up")
      | some h =>
          if h = "" then (s, .failure "No PIN set up")
          else if hash pin == h then
            ({ s with isAuthenticated := true, lastActivity := now },
              .success)
          else (s, .failure "Incorrect PIN")

/-- `authenticate()`: method `'none'` auto-succeeds; method `'pin'` signals
that the PIN UI is required; ANY other method value falls through to the
trailing "just authenticate without biometric" block, which authenticates
unconditionally. -/
def authenticate (now : Int) (s : AuthState) : AuthState × AuthResult :=
  if s.authMethod == "none" then
    ({ s with isAuthenticated := true, lastActivity := now }, .success)
  else if s.authMethod == "pin" then (s, .requiresPIN)
  else ({ s with isAuthenticated := true, lastActivity := now }, .success)

/-- `encryptData(data)`: serializes the value (`stringify` models
`JSON.stringify`) and AES-encrypts it with the stored key (`enc` models
`CryptoJS.AES.encrypt(·, key).toString()`, `none` when it throws); a failure
is caught and the plain serialization returned as fallback. -/
def encryptData {α : Type} (enc : String → String → Option String)
    (stringify : α → String) (key : String) (v : α) : String :=
  match enc key (stringify v) with
  | some c => c
  | none => stringify v

/-- `decryptData(encryptedData)`: AES-decrypts with the stored key and
UTF-8-decodes (`dec`, `none` when either throws or yields no valid text),
then JSON-parses (`parse`, `none` when it throws).  If that pipeline fails,
the `catch` tries to JSON-parse the input itself, and a second failure
returns `null` (`none`).  The function is total: it never throws. -/
def decryptData {α : Type} (dec : String → String → Option String)
    (parse : String → Option α) (key : String) (blob : String) : Option α :=
  match (dec key blob).bind parse with
  | some v => some v
  | none => parse blob

/-- Spec-side filter predicate for the C6 refinement, following the claim's
words: "exactly the transactions satisfying the conjunction of the present
predicates (type equality, category equality, date >= startDate,
date <= endDate)" — every present key contributes its predicate. -/
def claimFilterPred (f : Filters) (r : TxnRow) : Bool :=
  (f.type.all fun ty => r.type == ty) &&
  (f.category.all fun c => r.category == some c) &&
  (f.startDate.all fun sd => textLe sd r.date) &&
  (f.endDate.all fun ed => textLe r.date ed)

/-- A concrete stored transaction row used by concrete instances below. -/
def cexRow : TxnRow :=
  { id := "t1", amount := 5, type := .expense, category := some "x"
    subcategory := none, description := none, date := "2024-01-01"
    account := "main", currency := "USD", tags := none, location := none
    receipt := none, recurring := 0, recurringPattern := none
    createdAt := "2024-01-01", updatedAt := "2024-01-01" }

/-- A concrete income row of amount 100 (for the C2 example). -/
def sampleIncomeRow : TxnRow :=
  { id := "i1", amount := 100, type := .income, category := some "Salary"
    subcategory := none, description := none, date := "2024-01-10"
    account := "main", currency := "USD", tags := none, location := none
    receipt := none, recurring := 0, recurringPattern := none
    createdAt := "2024-01-10", updatedAt := "2024-01-10" }

/-- A concrete expense row of amount 40 (for the C2 example). -/
def sampleExpenseRow : TxnRow :=
  { id := "e1", amount := 40, type := .expense, category := some "Food"
    subcategory := none, description := none, date := "2024-01-20"
    account := "main", currency := "USD", tags := none, location := none
    receipt := none, recurring := 0, recurringPattern := none
    createdAt := "2024-01-20", updatedAt := "2024-01-20" }

/-- C1: the seeding step is NOT idempotent for categories.  Each run of
`insertDefaultCategories` generates fresh random identifiers, so its
`INSERT OR IGNORE` (which can only ignore on an `id` primary-key conflict)
never ignores anything: two successive runs of the seeding step leave ten
category rows, with every default name (e.g. `Salary`) duplicated, where the
claim demands five.  The settings half behaves as claimed: `settings` is
keyed on `key`, so re-seeding it is a no-op. -/
theorem seedTwice_duplicatesCategories :
    (insertDefaultCategories ["a1", "a2", "a3", "a4", "a5"] "t1" []).length
        = 5 ∧
    (insertDefaultCategories ["b1", "b2", "b3", "b4", "b5"] "t2"
        (insertDefaultCategories ["a1", "a2", "a3", "a4", "a5"] "t1"
          [])).length = 10 ∧
    ((insertDefaultCategories ["b1", "b2", "b3", "b4", "b5"] "t2"
        (insertDefaultCategories ["a1", "a2", "a3", "a4", "a5"] "t1"
          [])).filter fun c => c.name == "Salary").length = 2 ∧
    insertDefaultSettings "t2" (insertDefaultSettings "t1" []) =
      insertDefaultSettings "t1" [] := by
  refine ⟨by decide, by decide, by decide, by decide⟩

/-- C4: error policy.  When the underlying store call throws,
`getTransactions`, `getTransactionSummary`, `getCategoryBreakdown`,
`getMonthlyTrends`, `getSetting` and `setSetting` all catch the failure and
return their safe default (empty list, zero summary, `null`, unchanged
settings table) without re-raising; `initialize` catches and still marks the
store initialized; `addTransaction` alone re-raises the store error. -/
theorem errorPolicy_catch_defaults :
    ∀ (e : String) (parseTags : String → List String)
      (parsePattern : String → Option String) (table : List TxnRow)
      (limit offset : Nat) (f : Filters) (sd ed : String)
      (brows : List BreakdownRow) (trows : List TrendRow)
      (st : List SettingRow) (k v now : String) (s0 : DBState) (txn : Txn),
      getTransactions parseTags parsePattern (.error e) table limit offset f
          = [] ∧
      getTransactionSummary (.error e) table sd ed = ⟨0, 0, 0⟩ ∧
      getCategoryBreakdown (.error e) brows = [] ∧
      getMonthlyTrends (.error e) trows = [] ∧
      getSetting (.error e) st k = none ∧
      setSetting (.error e) st k v now = st ∧
      (initializeDb (.error e) s0).isInitialized = true ∧
      addTransaction (.error e) txn = .error e := by
  intro e parseTags parsePattern table limit offset f sd ed brows trows st k
    v now s0 txn
  refine ⟨rfl, rfl, rfl, rfl, rfl, rfl, ?_, rfl⟩
  unfold initializeDb
  by_cases h : s0.isInitialized <;> simp [h]

/-- C5: `authenticateWithPIN` when no PIN hash is stored (`getItem` returned
`null`) returns the `No PIN set up` failure for every input PIN, never the
`Incorrect PIN` failure, and leaves the authentication state unchanged. -/
theorem authenticateWithPIN_noPinConfigured :
    ∀ (hash : String → String) (now : Int) (s : AuthState) (pin : String),
      authenticateWithPIN (.ok none) hash now s pin
          = (s, .failure "No PIN set up") ∧
      (authenticateWithPIN (.ok none) hash now s pin).2
          ≠ .failure "Incorrect PIN" ∧
      (authenticateWithPIN (.ok none) hash now s pin).1.isAuthenticated
          = s.isAuthenticated := by
  intro hash now s pin
  refine ⟨rfl, ?_, rfl⟩
  simp [authenticateWithPIN]

/-- C8: one tick of the 30-second session interval logs out exactly when the
user is authenticated and the wall-clock time since last activity strictly
exceeds the session timeout (default `5 * 60 * 1000` ms from the
constructor); in every other situation the tick leaves the state
untouched. -/
theorem sessionTick_spec :
    sessionCheckIntervalMs = 30000 ∧
    (∀ t : Int, (defaultAuthState t).sessionTimeout = 5 * 60 * 1000) ∧
    (∀ (s : AuthState) (now : Int),
      (s.isAuthenticated = true → now - s.lastActivity > s.sessionTimeout →
        sessionTick now s = logout s) ∧
      (s.isAuthenticated = false → sessionTick now s = s) ∧
      (now - s.lastActivity ≤ s.sessionTimeout → sessionTick now s = s)) := by
  refine ⟨rfl, fun t => rfl, fun s now => ⟨?_, ?_, ?_⟩⟩
  · intro ha hx
    simp [sessionTick, ha, hx]
  · intro ha
    simp [sessionTick, ha]
  · intro hx
    simp [sessionTick, not_lt.mpr hx]

/-- Witness for C8: a concrete expired authenticated state is logged out by
the tick, and a concrete fresh state is untouched. -/
theorem sessionTick_spec_witness :
    sessionTick 400000 ⟨true, "none", 300000, 0, true⟩
        = logout ⟨true, "none", 300000, 0, true⟩ ∧
    sessionTick 100 ⟨true, "none", 300000, 0, true⟩
        = ⟨true, "none", 300000, 0, true⟩ :=
  ⟨(sessionTick_spec.2.2 ⟨true, "none", 300000, 0, true⟩ 400000).1 rfl
      (by decide),
    (sessionTick_spec.2.2 ⟨true, "none", 300000, 0, true⟩ 100).2.2
      (by decide)⟩

/-- C10: for every `authMethod` other than `'none'` and `'pin'` (including
the reserved `'biometric'`), `authenticate()` sets `isAuthenticated`,
refreshes `lastActivity`, and returns success, with no credential check. -/
theorem authenticate_fallthrough :
    ∀ (s : AuthState) (now : Int),
      s.authMethod ≠ "none" → s.authMethod ≠ "pin" →
      authenticate now s
        = ({ s with isAuthenticated := true, lastActivity := now },
            .success) := by
  intro s now h1 h2
  simp [authenticate, h1, h2]

/-- Witness for C10 at `authMethod = 'biometric'`. -/
theorem authenticate_fallthrough_witness :
    authenticate 7 ⟨false, "biometric", 300000, 0, false⟩
      = (⟨true, "biometric", 300000, 7, false⟩, .success) :=
  authenticate_fallthrough ⟨false, "biometric", 300000, 0, false⟩ 7
    (by decide) (by decide)

/-- C3: `decryptData` inverts `encryptData` against the same stored key,
given the library contracts: the AES encryption of the serialization
succeeded (`henc`), AES decryption with the same key inverts it (`hdec`),
and the serialization round-trips through the JSON parser (`hparse`, which
is what "serializable input" means — it holds for nested structures and
empty values alike).  The result is `some v`: deep-equal to the input. -/
theorem encryptData_decryptData_roundtrip {α : Type}
    (enc dec : String → String → Option String) (stringify : α → String)
    (parse : String → Option α) (key : String) (v : α) (c : String)
    (henc : enc key (stringify v) = some c)
    (hdec : dec key c = some (stringify v))
    (hparse : parse (stringify v) = some v) :
    decryptData dec parse key (encryptData enc stringify key v) = some v := by
  unfold encryptData
  rw [henc]
  unfold decryptData
  rw [hdec]
  simp [hparse]

/-- Witness for C3: a concrete serialization, a concrete cipher, and the
value `5`. -/
theorem encryptData_decryptData_roundtrip_witness :
    (fun (_ : String) (_ : String) => some "Efive") "k" "five"
        = some "Efive" ∧
    (fun (_ : String) (s : String) =>
        if s = "Efive" then some "five" else none) "k" "Efive"
        = some "five" ∧
    (fun s => if s = "five" then some 5 else none) "five" = some 5 ∧
    decryptData
        (fun (_ : String) (s : String) =>
          if s = "Efive" then some "five" else none)
        (fun s => if s = "five" then some 5 else none) "k"
        (encryptData (fun (_ : String) (_ : String) => some "Efive")
          (fun (_ : Nat) => "five") "k" 5) = some 5 :=
  ⟨rfl, by decide, by decide,
    encryptData_decryptData_roundtrip _ _ _ _ "k" 5 "Efive" rfl (by decide)
      (by decide)⟩

/-- C9: `decryptData` is a total function (it never throws), and whenever the
decrypt-then-parse pipeline fails to produce a value, it falls back to
parsing the input blob itself — so when that parse also fails the result is
`none` (`null`). -/
theorem decryptData_fallback {α : Type}
    (dec : String → String → Option String) (parse : String → Option α)
    (key blob : String) (h : (dec key blob).bind parse = none) :
    decryptData dec parse key blob = parse blob := by
  unfold decryptData
  rw [h]

/-- Witness for C9: a cipher that always fails to decrypt, a numeral parser,
and the blob `"7"`, on which the fallback parse succeeds. -/
theorem decryptData_fallback_witness :
    ((fun (_ : String) (_ : String) => (none : Option String)) "k"
        "7").bind (fun s => if s = "7" then some 7 else none) = none ∧
    decryptData (fun (_ : String) (_ : String) => (none : Option String))
        (fun s => if s = "7" then some 7 else none) "k" "7"
        = (fun s => if s = "7" then some 7 else none) "7" :=
  ⟨rfl, decryptData_fallback _ _ "k" "7" rfl⟩

/-- Helper: the `INSERT OR REPLACE` upsert leaves exactly one row under the
upserted key, the fresh one. -/
theorem settings_upsert_filter (st : List SettingRow) (k v t : String) :
    (insertOrReplaceSetting st k v t).filter (fun r => r.key == k)
      = [⟨k, v, t⟩] := by
  unfold insertOrReplaceSetting
  rw [List.filter_append, List.filter_filter]
  simp

/-- C7: two successive `setSetting(k, v)` calls leave exactly one settings
row with key `k`; its value is `v` and its `updatedAt` is the second call's
timestamp (the upsert replaces on conflict), and a subsequent
`getSetting(k)` returns `v`. -/
theorem setSetting_twice_idempotent :
    ∀ (st : List SettingRow) (k v t1 t2 : String),
      ((setSetting (.ok ()) (setSetting (.ok ()) st k v t1) k v t2).filter
          (fun r => r.key == k)).map (fun r => (r.value, r.updatedAt))
          = [(v, t2)] ∧
      getSetting (.ok ())
          (setSetting (.ok ()) (setSetting (.ok ()) st k v t1) k v t2) k
          = some v := by
  intro st k v t1 t2
  refine ⟨?_, ?_⟩ <;> simp [setSetting, getSetting, settings_upsert_filter]

/-- Helper: the `summary[row.type] = row.total` fold over the grouped rows
yields the per-type totals, with types absent from the groups left at 0. -/
theorem summary_fold_characterization (rows : List TxnRow) :
    (([TType.income, TType.expense, TType.transfer].filterMap fun ty =>
        if (rows.filter fun r => r.type == ty).isEmpty then none
        else some (ty, sumAmounts (rows.filter fun r => r.type == ty))).foldl
      (fun s p => applyTypeTotal s p.1 p.2) ⟨0, 0, 0⟩) =
    ⟨sumAmounts (rows.filter fun r => r.type == TType.income),
     sumAmounts (rows.filter fun r => r.type == TType.expense),
     sumAmounts (rows.filter fun r => r.type == TType.transfer)⟩ := by
  simp only [List.filterMap_cons, List.filterMap_nil]
  generalize (rows.filter fun r => r.type == TType.income) = gI
  generalize (rows.filter fun r => r.type == TType.expense) = gE
  generalize (rows.filter fun r => r.type == TType.transfer) = gT
  cases gI <;> cases gE <;> cases gT <;>
    simp [applyTypeTotal, sumAmounts]

/-- C2: `getTransactionSummary(startDate, endDate)` returns the fixed-shape
`{income, expense, transfer}` summary in which each component is the sum of
amounts of the stored transactions of that type whose date lies in the
inclusive range, a type with no matching transactions mapping to 0
(`sumAmounts [] = 0`); in particular, over one income of 100 and one expense
of 40 it returns `{income: 100, expense: 40, transfer: 0}`. -/
theorem getTransactionSummary_correct :
    (∀ (table : List TxnRow) (sd ed : String),
      getTransactionSummary (.ok ()) table sd ed =
        ⟨sumAmounts ((table.filter (inRange sd ed)).filter
            fun r => r.type == TType.income),
         sumAmounts ((table.filter (inRange sd ed)).filter
            fun r => r.type == TType.expense),
         sumAmounts ((table.filter (inRange sd ed)).filter
            fun r => r.type == TType.transfer)⟩) ∧
    getTransactionSummary (.ok ()) [sampleIncomeRow, sampleExpenseRow]
        "2024-01-01" "2024-01-31" = ⟨100, 40, 0⟩ := by
  refine ⟨?_, ?_⟩
  · intro table sd ed
    exact summary_fold_characterization (table.filter (inRange sd ed))
  · decide

/-- Helper: the text comparison is total. -/
theorem charsLe_total : ∀ as bs : List Char,
    charsLe as bs = true ∨ charsLe bs as = true
  | [], _ => .inl rfl
  | _ :: _, [] => .inr rfl
  | a :: as, b :: bs => by
      simp only [charsLe, Bool.or_eq_true, Bool.and_eq_true,
        decide_eq_true_eq, beq_iff_eq]
      rcases Nat.lt_trichotomy a.toNat b.toNat with h | h | h
      · exact .inl (.inl h)
      · cases charsLe_total as bs with
        | inl hr => exact .inl (.inr ⟨h, hr⟩)
        | inr hr => exact .inr (.inr ⟨h.symm, hr⟩)
      · exact .inr (.inl h)

/-- Helper: the text comparison is transitive. -/
theorem charsLe_trans : ∀ as bs cs : List Char,
    charsLe as bs = true → charsLe bs cs = true → charsLe as cs = true
  | [], _, _ => by
      intro _ _
      rfl
  | _ :: _, [], _ => by
      intro h _
      exact absurd h (by simp [charsLe])
  | a :: as, b :: bs, [] => by
      intro _ h
      exact absurd h (by simp [charsLe])
  | a :: as, b :: bs, c :: cs => by
      intro h1 h2
      simp only [charsLe, Bool.or_eq_true, Bool.and_eq_true,
        decide_eq_true_eq, beq_iff_eq] at h1 h2 ⊢
      rcases h1 with h1 | ⟨hab, r1⟩
      · rcases h2 with h2 | ⟨hbc, r2⟩
        · exact .inl (by omega)
        · exact .inl (by omega)
      · rcases h2 with h2 | ⟨hbc, r2⟩
        · exact .inl (by omega)
        · exact .inr ⟨by omega, charsLe_trans as bs cs r1 r2⟩

/-- Helper: when no present filter value is the empty string, the `WHERE`
clause the code assembles coincides with the claim's conjunction of present
predicates. -/
theorem rowMatches_eq_claimFilterPred (f : Filters)
    (hcat : f.category ≠ some "") (hsd : f.startDate ≠ some "")
    (hed : f.endDate ≠ some "") (r : TxnRow) :
    rowMatches f r = claimFilterPred f r := by
  unfold rowMatches claimFilterPred
  cases hty : f.type <;> cases hc : f.category <;> cases hs : f.startDate <;>
    cases he : f.endDate <;> simp_all [Option.all]

/-- C6 counterexample: the claim quantifies over "every filters object with
any subset of the keys present", but a present key holding the empty string
is skipped by the code's JavaScript truthiness test `if (filters.category)`.
With one stored row of category `"x"` and the filter `{category: ""}`, the
code returns that row, while the claim's conjunction of present predicates
(`category = ""`) matches no row. -/
theorem getTransactions_emptyStringFilter_cex :
    getTransactions (fun _ => []) (fun _ => none) (.ok ()) [cexRow] 100 0
        ⟨none, some "", none, none⟩ =
      [deserializeTxn (fun _ => []) (fun _ => none) cexRow] ∧
    [cexRow].filter (claimFilterPred ⟨none, some "", none, none⟩) = [] := by
  refine ⟨?_, ?_⟩ <;> decide

/-- C6 (amended): for every filters object none of whose present values is
the empty string (JavaScript-truthy values; a present empty-string value is
ignored by the code), `getTransactions` returns exactly the stored
transactions satisfying the conjunction of the present predicates, in some
order sorted by date descending, paginated by limit/offset, and mapped
through the deserialization of `tags`/`recurringPattern` and the boolean
coercion of `recurring`. -/
theorem getTransactions_characterization
    (parseTags : String → List String)
    (parsePattern : String → Option String) (table : List TxnRow)
    (limit offset : Nat) (f : Filters) (hcat : f.category ≠ some "")
    (hsd : f.startDate ≠ some "") (hed : f.endDate ≠ some "") :
    ∃ sorted : List TxnRow,
      sorted.Perm (table.filter (claimFilterPred f)) ∧
      List.Sorted dateGe sorted ∧
      getTransactions parseTags parsePattern (.ok ()) table limit offset f =
        ((sorted.drop offset).take limit).map
          (deserializeTxn parseTags parsePattern) := by
  refine ⟨List.insertionSort dateGe (table.filter (rowMatches f)), ?_, ?_,
    rfl⟩
  · have heq : table.filter (rowMatches f)
        = table.filter (claimFilterPred f) :=
      List.filter_congr
        (fun x _ => rowMatches_eq_claimFilterPred f hcat hsd hed x)
    rw [← heq]
    exact List.perm_insertionSort dateGe _
  · haveI : IsTotal TxnRow dateGe :=
      ⟨fun a b => charsLe_total b.date.data a.date.data⟩
    haveI : IsTrans TxnRow dateGe :=
      ⟨fun a b c h1 h2 =>
        charsLe_trans c.date.data b.date.data a.date.data h2 h1⟩
    exact List.sorted_insertionSort dateGe _

/-- Witness for the amended C6 at a concrete table and a concrete non-empty
category filter. -/
theorem getTransactions_characterization_witness :
    ∃ sorted : List TxnRow,
      sorted.Perm ([cexRow].filter
        (claimFilterPred ⟨none, some "x", none, none⟩)) ∧
      List.Sorted dateGe sorted ∧
      getTransactions (fun _ => []) (fun _ => none) (.ok ()) [cexRow] 100 0
          ⟨none, some "x", none, none⟩ =
        ((sorted.drop 0).take 100).map
          (deserializeTxn (fun _ => []) (fun _ => none)) :=
  getTransactions_characterization (fun _ => []) (fun _ => none) [cexRow]
    100 0 ⟨none, some "x", none, none⟩ (by decide) (by decide) (by decide)

end BudgetWise
